import Mathlib

/-!
Shallow embedding of the InvestorAgent stage-classification and
volume-accumulation pipeline (analyze_stages.py, analyze_volume.py).

Prices, volumes and derived statistics are modelled as rationals.
A pandas column that may contain NaN entries is modelled as a
`List (Option ℚ)` with `none` standing for NaN; IEEE comparisons
against NaN are false, which `nanGe`/`nanGT` reproduce.  Fallible
functions (which in Python raise or return an error record) return
`Except`.
-/

namespace InvestorAgent

/-- Comparison `a >= b` as pandas evaluates it on possibly-NaN floats:
any comparison involving NaN is false. -/
def nanGe (a b : Option ℚ) : Bool :=
  match a, b with
  | some x, some y => decide (y ≤ x)
  | _, _ => false

/-- Comparison `a > b` as pandas evaluates it on possibly-NaN floats:
any comparison involving NaN is false. -/
def nanGT (a b : Option ℚ) : Bool :=
  match a, b with
  | some x, some y => decide (y < x)
  | _, _ => false

/-- One round of pairwise addition (an associativity-respecting summation
step; used to compute list sums in logarithmic nesting depth). -/
def pairSum : List ℚ → List ℚ
  | [] => []
  | [x] => [x]
  | x :: y :: rest => (x + y) :: pairSum rest

/-- Balanced summation with a fuel bound on the number of pairwise rounds;
`qsum_eq_sum` below proves it computes exactly `List.sum`. -/
def qsumAux : ℕ → List ℚ → ℚ
  | _, [] => 0
  | _, [x] => x
  | 0, l => l.foldr (· + ·) 0
  | fuel + 1, l => qsumAux fuel (pairSum l)

/-- The sum of a list of rationals (balanced evaluation order). -/
def qsum (l : List ℚ) : ℚ := qsumAux l.length l

/-- Entry `i` of `Close.rolling(window=w).mean()`: the arithmetic mean of the
`w` values ending at index `i`, NaN (`none`) when fewer than `w` values
precede it. -/
def rollingMeanAt (l : List ℚ) (w i : ℕ) : Option ℚ :=
  if i + 1 < w then none
  else some ((qsum ((l.drop (i + 1 - w)).take w)) / (w : ℚ))

/-- The full rolling-mean column over a close-price list. -/
def rollingMean (w : ℕ) (l : List ℚ) : List (Option ℚ) :=
  (List.range l.length).map (rollingMeanAt l w)

/-- Value `series.iloc[-1]` of a moving-average column, i.e. the value at the most
recent bar (NaN when the window does not fit, `none` on an empty list). -/
def lastMA (closes : List ℚ) (w : ℕ) : Option ℚ :=
  (rollingMean w closes).getD (closes.length - 1) none

/-- Function `is_trending_up(series, days_ago)` from analyze_stages.py: with at most
`days_ago` points the answer is `true` (benefit of the doubt); otherwise
compare `series.iloc[-1] >= series.iloc[-(days_ago+1)]` with NaN-comparison
semantics. -/
def is_trending_up (series : List (Option ℚ)) (days_ago : ℕ) : Bool :=
  if series.length ≤ days_ago then true
  else nanGe (series.getD (series.length - 1) none)
             (series.getD (series.length - (days_ago + 1)) none)

/-- Criterion 1 of analyze_stages.py: `ma10 > ma20 > ma50 > ma100 > ma200`
at the latest bar, attempted only when MA10 and MA200 are both non-NaN. -/
def ma_sequence (closes : List ℚ) : Bool :=
  if (lastMA closes 10).isSome && (lastMA closes 200).isSome then
    nanGT (lastMA closes 10) (lastMA closes 20) &&
    nanGT (lastMA closes 20) (lastMA closes 50) &&
    nanGT (lastMA closes 50) (lastMA closes 100) &&
    nanGT (lastMA closes 100) (lastMA closes 200)
  else false

/-- Criterion 2 of analyze_stages.py: all five moving averages pass
`is_trending_up` with their respective lookback offsets. -/
def mas_trending_up (closes : List ℚ) : Bool :=
  is_trending_up (rollingMean 10 closes) 5 &&
  is_trending_up (rollingMean 20 closes) 10 &&
  is_trending_up (rollingMean 50 closes) 25 &&
  is_trending_up (rollingMean 100 closes) 50 &&
  is_trending_up (rollingMean 200 closes) 100

/-- One daily price bar as consumed by analyze_stages.py. -/
structure PriceBar where
  high : ℚ
  low : ℚ
  close : ℚ
deriving DecidableEq, Repr

/-- The input frame: its rows, plus whether the Close column is present
(`"Close" not in df.columns` is a frame-level condition in the source). -/
structure PriceFrame where
  rows : List PriceBar
  hasClose : Bool
deriving DecidableEq, Repr

/-- Recent window of criterion 4: the last 120 bars (`df.iloc[-120:]`). -/
def recentWindow (bars : List PriceBar) : List PriceBar :=
  bars.drop (bars.length - 120)

/-- Prior window of criterion 4: `df.iloc[-240:-120]` when at least 240 bars
exist, otherwise everything before the recent window (`df.iloc[:-120]`). -/
def priorWindow (bars : List PriceBar) : List PriceBar :=
  if 240 ≤ bars.length then (bars.drop (bars.length - 240)).take 120
  else bars.take (bars.length - 120)

/-- One round of pairwise combination by `f` (balanced folding, like
`pairSum`). -/
def pairFold (f : ℚ → ℚ → ℚ) : List ℚ → List ℚ
  | [] => []
  | [x] => [x]
  | x :: y :: rest => f x y :: pairFold f rest

/-- Balanced fold of an associative-commutative combiner over a list, with a
fuel bound on the number of pairwise rounds; `none` on the empty list. -/
def balFoldAux (f : ℚ → ℚ → ℚ) : ℕ → List ℚ → Option ℚ
  | _, [] => none
  | _, [x] => some x
  | 0, x :: xs => some (xs.foldl f x)
  | fuel + 1, l => balFoldAux f fuel (pairFold f l)

/-- Balanced fold of `f` over a whole list. -/
def balFold (f : ℚ → ℚ → ℚ) (l : List ℚ) : Option ℚ := balFoldAux f l.length l

/-- Maximum of a list of rationals, `none` on the empty list
(pandas `Series.max`). -/
def listMax (l : List ℚ) : Option ℚ := balFold max l

/-- Minimum of a list of rationals, `none` on the empty list
(pandas `Series.min`). -/
def listMin (l : List ℚ) : Option ℚ := balFold min l

/-- Criterion 4 of analyze_stages.py: higher highs and higher lows of the
recent 120-bar window against the prior window. -/
def higher_highs_lows (bars : List PriceBar) : Bool :=
  if 120 ≤ bars.length then
    if (recentWindow bars).isEmpty || (priorWindow bars).isEmpty then false
    else
      match listMax ((recentWindow bars).map PriceBar.high),
            listMax ((priorWindow bars).map PriceBar.high),
            listMin ((recentWindow bars).map PriceBar.low),
            listMin ((priorWindow bars).map PriceBar.low) with
      | some rh, some ph, some rl, some pl => decide (ph < rh ∧ pl < rl)
      | _, _, _, _ => false
  else false

/-- The three period-over-period growth ratios of a quarterly metric
(analyze_stages.py, criterion 5): defined only when exactly 4 values are
present; a zero denominator yields ratio 0. -/
def growthRatios (vals : List ℚ) : List ℚ :=
  let v := vals.take 4
  if v.length = 4 then
    (List.range 3).map (fun i =>
      let a := v.getD i 0
      let b := v.getD (i + 1) 0
      if b ≠ 0 then (a - b) / |b| else 0)
  else []

/-- A quarterly metric passes when at least 2 of its growth ratios are
strictly positive. -/
def metricPass (vals : List ℚ) : Bool :=
  decide (2 ≤ (growthRatios vals).countP (fun g => decide (0 < g)))

/-- The fundamentals-growth value computed inside the `try` block of
analyze_stages.py (line 136): both the net-income and the revenue metric
must pass. -/
def checkFundamentalsGrowth (netIncome revenue : List ℚ) : Bool :=
  metricPass netIncome && metricPass revenue

/-- Criterion 5 as actually reported by analyze_stages.py: line 140
(`eps_sales_growth = False`) sits at function-body indentation, outside the
`except` handler, so it unconditionally overwrites the computed value. -/
def eps_sales_growth (netIncome revenue : List ℚ) : Bool :=
  let _computed := checkFundamentalsGrowth netIncome revenue
  false

/-- Criterion 6 of analyze_stages.py: the relative-strength proxy, a strictly
positive 126-bar return from a positive starting price. -/
def rs_70 (closes : List ℚ) : Bool :=
  if 126 ≤ closes.length then
    let price := closes.getD (closes.length - 1) 0
    let start := closes.getD (closes.length - 126) 0
    if 0 < start then decide (0 < (price - start) / start) else false
  else false

/-- The overall verdict values a StageResult can report. -/
inductive Verdict where
  | no
  | yes
  | yesPlus
  | yesPlusPlus
deriving DecidableEq, Repr

/-- The record built by analyze_stages.py (each Bool is serialized as
"Yes"/"No"; `overall` is the `Stage2_Overall` entry). -/
structure StageResult where
  maSequence : Bool
  masTrendingUp : Bool
  priceAbove50d : Bool
  priceAbove150d : Bool
  higherHighsLows : Bool
  epsSalesGrowth : Bool
  rs70 : Bool
  overall : Verdict
deriving DecidableEq, Repr

/-- The data-unavailable failure raised by analyze_stages.py; its message
names the requested ticker symbol. -/
inductive DataErr where
  | noData (symbol : String)
deriving DecidableEq, Repr

/-- Function `analyze_stock_stage2` from analyze_stages.py with the fetched frame and
fundamentals passed explicitly (network fetch is out of scope).  An empty
frame or a frame without a Close column raises before any computation. -/
def analyze_stock_stage2 (ticker : String) (df : PriceFrame)
    (netIncome revenue : List ℚ) : Except DataErr StageResult :=
  if df.rows.isEmpty || !df.hasClose then .error (.noData ticker)
  else
    let closes := df.rows.map PriceBar.close
    let price := closes.getD (closes.length - 1) 0
    let maSeq := ma_sequence closes
    let trending := mas_trending_up closes
    let p50 := nanGT (some price) (lastMA closes 50)
    let p150 := nanGT (some price) (lastMA closes 150)
    let hhll := higher_highs_lows df.rows
    let eps := eps_sales_growth netIncome revenue
    let rs := rs_70 closes
    let priceCondition := p50 || p150
    .ok { maSequence := maSeq
          masTrendingUp := trending
          priceAbove50d := p50
          priceAbove150d := p150
          higherHighsLows := hhll
          epsSalesGrowth := eps
          rs70 := rs
          overall := if maSeq && trending && priceCondition && hhll
                     then Verdict.yes else Verdict.no }

/-! ## Volume accumulation scorer (analyze_volume.py) -/

/-- One weekly OHLCV bar as consumed by volume_analysis. -/
structure WeekBar where
  close : ℚ
  volume : ℚ
  high : ℚ
  low : ℚ
deriving DecidableEq, Repr

/-- The requested lookback period: a count with a unit, as matched by the
regular expression (a count followed by wk, mo or y), or an unparseable
string. -/
inductive Period where
  | wk (n : ℕ)
  | mo (n : ℕ)
  | yr (n : ℕ)
  | unparsed
deriving DecidableEq, Repr

/-- The period converted to weeks: months times 4, years times 52, and 26
weeks when the format is unclear. -/
def periodWeeks : Period → ℕ
  | .wk n => n
  | .mo n => n * 4
  | .yr n => n * 52
  | .unparsed => 26

/-- Moving-average window selected from the period length in weeks. -/
def maWindow (pv : ℕ) : ℕ :=
  if pv ≤ 26 then 10 else if pv ≤ 52 then 20 else 50

/-- Trend-confirmation window selected from the period length in weeks. -/
def trendWeeks (pv : ℕ) : ℕ :=
  if pv ≤ 26 then 4 else if pv ≤ 52 then 6 else if pv ≤ 104 then 8 else 10

/-- Column `df["10_Week_MA_Volume"]` at index `i`: the 10-period rolling mean of
volume with NaN filled by 0. -/
def volMA10 (volumes : List ℚ) (i : ℕ) : ℚ :=
  if i + 1 < 10 then 0
  else (((volumes.drop (i + 1 - 10)).take 10).sum) / 10

/-- Column `df["Above_Avg_Volume"]` at index `i` (the second assignment, the one in
effect downstream): volume strictly above 1.2 times its 10-period moving
average. -/
def aboveAvgVolume (bars : List WeekBar) (i : ℕ) : Bool :=
  decide (volMA10 (bars.map WeekBar.volume) i * (6 / 5) < (bars.map WeekBar.volume).getD i 0)

/-- Test `close.pct_change().fillna(0) > thr` at index `i`, with the IEEE behavior
of a zero previous close: a positive change gives plus infinity (above any
threshold), a negative change minus infinity (below any threshold), and 0/0
gives NaN which `fillna` turns into 0. -/
def pctChangeGt (closes : List ℚ) (i : ℕ) (thr : ℚ) : Bool :=
  match i with
  | 0 => decide (thr < 0)
  | j + 1 =>
    let p := closes.getD j 0
    let c := closes.getD (j + 1) 0
    if p = 0 then
      if 0 < c then true else if c < 0 then false else decide (thr < 0)
    else decide (thr < (c - p) / p)

/-- Column `df["Strong_Price_Increase"]`: period-over-period close change above
0.5 percent. -/
def strongPriceIncrease (bars : List WeekBar) (i : ℕ) : Bool :=
  pctChangeGt (bars.map WeekBar.close) i (1 / 200)

/-- Column `df["Mild_Pullback"]`: period-over-period close change above minus
5 percent. -/
def mildPullback (bars : List WeekBar) (i : ℕ) : Bool :=
  pctChangeGt (bars.map WeekBar.close) i (-(1 / 20))

/-- Test `df["Close"].diff().fillna(0) > 0` at index `i`. -/
def diffPos (closes : List ℚ) (i : ℕ) : Bool :=
  match i with
  | 0 => false
  | j + 1 => decide (closes.getD j 0 < closes.getD (j + 1) 0)

/-- Test `df["Close"].diff().fillna(0) < 0` at index `i`. -/
def diffNeg (closes : List ℚ) (i : ℕ) : Bool :=
  match i with
  | 0 => false
  | j + 1 => decide (closes.getD (j + 1) 0 < closes.getD j 0)

/-- Column `df["Closing_Strong"]`: `(close - low) / (high - low) > 0.5`, with the
IEEE outcome of a zero-width range (division by zero yields an infinity or
NaN, and only plus infinity passes the comparison). -/
def closingStrong (bars : List WeekBar) (i : ℕ) : Bool :=
  let c := (bars.map WeekBar.close).getD i 0
  let h := (bars.map WeekBar.high).getD i 0
  let l := (bars.map WeekBar.low).getD i 0
  if h = l then decide (l < c)
  else decide (1 / 2 < (c - l) / (h - l))

/-- Column `df["Volatility_Check"]`: `(high - low) / low < 0.08`, with the IEEE
outcome of a zero low (only minus infinity passes). -/
def volatilityCheck (bars : List WeekBar) (i : ℕ) : Bool :=
  let h := (bars.map WeekBar.high).getD i 0
  let l := (bars.map WeekBar.low).getD i 0
  if l = 0 then decide (h < 0)
  else decide ((h - l) / l < 2 / 25)

/-- Column `df["Previous_Uptrend"]`: the close one bar back exceeds the close two
bars back; NaN from shifting past the start compares false. -/
def previousUptrend (bars : List WeekBar) (i : ℕ) : Bool :=
  match i with
  | 0 => false
  | 1 => false
  | j + 2 => decide ((bars.map WeekBar.close).getD j 0 < (bars.map WeekBar.close).getD (j + 1) 0)

/-- Column `df["Accumulation_Day"]` at index `i`. -/
def accumulationDay (bars : List WeekBar) (i : ℕ) : Bool :=
  aboveAvgVolume bars i && strongPriceIncrease bars i && closingStrong bars i

/-- Column `df["Low_Volume_Pullback"]` at index `i`. -/
def lowVolumePullback (bars : List WeekBar) (i : ℕ) : Bool :=
  !aboveAvgVolume bars i && diffNeg (bars.map WeekBar.close) i &&
  mildPullback bars i && volatilityCheck bars i && previousUptrend bars i

/-- Column `df["Volume_Strength"]` at index `i`: volume divided by its 10-period
moving average, with infinities and NaN (a zero denominator) replaced by 0. -/
def volumeStrength (bars : List WeekBar) (i : ℕ) : ℚ :=
  let ma := volMA10 (bars.map WeekBar.volume) i
  if ma = 0 then 0 else (bars.map WeekBar.volume).getD i 0 / ma

/-- Python `round(x, 2)`: round half to even at the second decimal. -/
def round2 (x : ℚ) : ℚ :=
  let y := x * 100
  let f := y.floor
  let r := y - (f : ℚ)
  (if 1 / 2 < r then (f + 1 : ℚ)
   else if r < 1 / 2 then (f : ℚ)
   else if f % 2 = 0 then (f : ℚ) else (f + 1 : ℚ)) / 100

/-- Qualitative trend label of the scorer. -/
inductive Trend where
  | uptrend
  | downtrend
  | sideways
deriving DecidableEq, Repr

/-- Qualitative institutional-activity label derived from the sentiment
score. -/
inductive Activity where
  | strongAccumulation
  | moderateAccumulation
  | potentialDistribution
  | highDistribution
  | mixed
deriving DecidableEq, Repr

/-- The branch ladder of analyze_volume.py lines 150-163, exactly in source
order: `> 0.3`, then `> 0.1`, then `< -0.1`, then `< -0.3`, else mixed. -/
def institutionActivity (s : ℚ) : Activity :=
  if 3 / 10 < s then .strongAccumulation
  else if 1 / 10 < s then .moderateAccumulation
  else if s < -(1 / 10) then .potentialDistribution
  else if s < -(3 / 10) then .highDistribution
  else .mixed

/-- The insights record built by volume_analysis. -/
structure VaResult where
  accumulationDays : ℕ
  pullbacks : ℕ
  sentimentScore : ℚ
  latestTrend : Trend
  activity : Activity
deriving DecidableEq, Repr

/-- How a call to volume_analysis can fail: no data for the symbol (the
error record naming the ticker), or the uncaught IndexError of
`iloc[-2]` on a series that is too short. -/
inductive VaError where
  | noData (symbol : String)
  | indexOutOfRange
deriving DecidableEq, Repr

/-- Function `volume_analysis` from analyze_volume.py with the fetched weekly frame
passed explicitly.  An empty frame returns the error record naming the
ticker; a single-bar frame reaches `df[f"SMA_.."].iloc[-2]` (line 110),
which raises IndexError. -/
def volume_analysis (ticker : String) (bars : List WeekBar) (period : Period) :
    Except VaError VaResult :=
  if bars.isEmpty then .error (.noData ticker)
  else if bars.length < 2 then .error .indexOutOfRange
  else
    let n := bars.length
    let closes := bars.map WeekBar.close
    let accCount := (List.range n).countP (accumulationDay bars)
    let pullbackCount := (List.range n).countP (lowVolumePullback bars)
    let pv := periodWeeks period
    let w := maWindow pv
    let rw := trendWeeks pv
    let recentIncreases := ((List.range n).drop (n - rw)).countP (diffPos closes)
    let isAboveSMA := nanGT (some (closes.getD (n - 1) 0)) (rollingMeanAt closes w (n - 1))
    let isSMARising := nanGT (rollingMeanAt closes w (n - 1)) (rollingMeanAt closes w (n - 2))
    let trend :=
      if decide ((rw : ℚ) * (3 / 4) ≤ (recentIncreases : ℚ)) && isAboveSMA && isSMARising
      then Trend.uptrend
      else if decide ((recentIncreases : ℚ) ≤ (rw : ℚ) * (1 / 4)) && !isAboveSMA && !isSMARising
      then Trend.downtrend
      else Trend.sideways
    let totalWeeks : ℕ := max n 1
    let weightedAccumulation :=
      (((List.range n).filter (accumulationDay bars)).map (volumeStrength bars)).sum
    let sentiment :=
      round2 ((2 * weightedAccumulation - (3 / 2) * (pullbackCount : ℚ)) / (totalWeeks : ℚ))
    .ok { accumulationDays := accCount
          pullbacks := pullbackCount
          sentimentScore := sentiment
          latestTrend := trend
          activity := institutionActivity sentiment }

/-! ## Spec-side definitions (for the refinement claim about the sentiment
score; phrased after the specification text, to be compared with the
pipeline above) -/

/-- Spec side: the weighted accumulation is the sum, over all accumulation
days, of the bar volume divided by that bar's 10-period volume moving
average, any non-finite quotient (zero-average denominator) clamped to 0. -/
def weightedAccumulationSpec (bars : List WeekBar) : ℚ :=
  (List.range bars.length).foldr
    (fun i acc =>
      if accumulationDay bars i then
        (if volMA10 (bars.map WeekBar.volume) i = 0 then 0
         else (bars.map WeekBar.volume).getD i 0 / volMA10 (bars.map WeekBar.volume) i) + acc
      else acc) 0

/-- Spec side: the number of low-volume-pullback bars. -/
def pullbackCountSpec (bars : List WeekBar) : ℕ :=
  (List.range bars.length).countP (lowVolumePullback bars)

/-- Spec side: score is `(2 x weighted accumulation - 1.5 x pullback count)
divided by max(total bar count, 1)`, rounded to 2 decimals. -/
def sentimentScoreSpec (bars : List WeekBar) : ℚ :=
  round2 ((2 * weightedAccumulationSpec bars - (3 / 2) * (pullbackCountSpec bars : ℚ)) /
    ((max bars.length 1 : ℕ) : ℚ))

/-! ## Concrete fixtures (mirroring the scenarios of the repository's test
suite: a strictly increasing 300-bar daily series, and small weekly series) -/

/-- A ticker symbol used in concrete runs. -/
def tkr : String := "TEST"

/-- The close column of the strictly increasing 300-bar scenario. -/
def upCloses : List ℚ := (List.range 300).map (fun j => (j : ℚ) + 100)

/-- The strictly increasing 300-bar daily series (highs and lows offset by
constants), as in the repository's TEST_UP fixture. -/
def upBars : List PriceBar :=
  (List.range 300).map (fun j => ⟨(j : ℚ) + 102, (j : ℚ) + 98, (j : ℚ) + 100⟩)

/-- The TEST_UP frame (Close column present). -/
def upFrame : PriceFrame := ⟨upBars, true⟩

/-- The stage record the code produces on the TEST_UP frame. -/
def upExpected : StageResult :=
  { maSequence := true, masTrendingUp := true, priceAbove50d := true,
    priceAbove150d := true, higherHighsLows := true, epsSalesGrowth := false,
    rs70 := true, overall := Verdict.yes }

/-- A 121-bar rising daily series: its recent window is its last 120 bars and
its prior window is its first bar. -/
def hhBars : List PriceBar :=
  (List.range 121).map (fun j => ⟨(j : ℚ) + 2, (j : ℚ) + 1, (j : ℚ)⟩)

/-- A two-bar weekly series whose second bar is an accumulation day. -/
def vBars : List WeekBar := [⟨10, 5, 11, 9⟩, ⟨13, 5, 13, 11⟩]

/-- The insights record the scorer produces on `vBars`. -/
def vExpected : VaResult :=
  { accumulationDays := 1, pullbacks := 0, sentimentScore := 0,
    latestTrend := Trend.downtrend, activity := Activity.mixed }

deriving instance DecidableEq for Except

/-! ## Helper lemmas -/

theorem pairSum_sum : ∀ l : List ℚ, (pairSum l).sum = l.sum
  | [] => rfl
  | [_] => rfl
  | x :: y :: rest => by
    simp only [pairSum, List.sum_cons, pairSum_sum rest]
    ring

theorem qsumAux_eq_sum : ∀ (fuel : ℕ) (l : List ℚ), qsumAux fuel l = l.sum := by
  intro fuel
  induction fuel with
  | zero =>
    intro l
    match l with
    | [] => rfl
    | [x] => simp [qsumAux]
    | x :: y :: rest => simp [qsumAux, List.sum]
  | succ n ih =>
    intro l
    match l with
    | [] => rfl
    | [x] => simp [qsumAux]
    | x :: y :: rest =>
      rw [show qsumAux (n + 1) (x :: y :: rest) = qsumAux n (pairSum (x :: y :: rest)) from rfl,
        ih, pairSum_sum]

/-- Lemma: `qsum` is the list sum. -/
theorem qsum_eq_sum (l : List ℚ) : qsum l = l.sum := qsumAux_eq_sum _ _

theorem pairFold_foldl (f : ℚ → ℚ → ℚ) (hf : ∀ a b c, f (f a b) c = f a (f b c)) :
    ∀ (acc : ℚ) (l : List ℚ), (pairFold f l).foldl f acc = l.foldl f acc
  | _, [] => rfl
  | _, [_] => rfl
  | acc, x :: y :: rest => by
    simp only [pairFold, List.foldl_cons, pairFold_foldl f hf _ rest, hf]

theorem balFoldAux_eq (f : ℚ → ℚ → ℚ) (hf : ∀ a b c, f (f a b) c = f a (f b c)) :
    ∀ (fuel : ℕ) (x : ℚ) (xs : List ℚ),
      balFoldAux f fuel (x :: xs) = some (xs.foldl f x) := by
  intro fuel
  induction fuel with
  | zero =>
    intro x xs
    match xs with
    | [] => rfl
    | y :: rest => rfl
  | succ n ih =>
    intro x xs
    match xs with
    | [] => rfl
    | y :: rest =>
      rw [show balFoldAux f (n + 1) (x :: y :: rest) = balFoldAux f n (pairFold f (x :: y :: rest))
        from rfl]
      show balFoldAux f n (f x y :: pairFold f rest) = _
      rw [ih (f x y) (pairFold f rest), pairFold_foldl f hf (f x y) rest]
      simp [List.foldl_cons]

/-- Lemma: `listMax` of a nonempty list is the left fold of `max` over it
(concretely: the pandas maximum of the column). -/
theorem listMax_cons (x : ℚ) (xs : List ℚ) : listMax (x :: xs) = some (xs.foldl max x) :=
  balFoldAux_eq max (fun a b c => max_assoc a b c) _ x xs

/-- Lemma: `listMin` of a nonempty list is the left fold of `min` over it. -/
theorem listMin_cons (x : ℚ) (xs : List ℚ) : listMin (x :: xs) = some (xs.foldl min x) :=
  balFoldAux_eq min (fun a b c => min_assoc a b c) _ x xs

theorem listMax_isSome {l : List ℚ} (h : l ≠ []) : ∃ m, listMax l = some m := by
  match l with
  | [] => exact absurd rfl h
  | x :: xs => exact ⟨_, listMax_cons x xs⟩

theorem listMin_isSome {l : List ℚ} (h : l ≠ []) : ∃ m, listMin l = some m := by
  match l with
  | [] => exact absurd rfl h
  | x :: xs => exact ⟨_, listMin_cons x xs⟩

theorem getD_map_some (l : List ℚ) (i : ℕ) :
    (l.map some).getD i none = l.get? i := by
  induction l generalizing i with
  | nil => cases i <;> rfl
  | cons x xs ih =>
    cases i with
    | zero => rfl
    | succ j => simpa using ih j

theorem get?_eq_some_getD (l : List ℚ) (i : ℕ) (h : i < l.length) :
    l.get? i = some (l.getD i 0) := by
  induction l generalizing i with
  | nil => simp at h
  | cons x xs ih =>
    cases i with
    | zero => rfl
    | succ j =>
      simp only [List.length_cons, Nat.succ_lt_succ_iff] at h
      simpa using ih j h

theorem rollingMean_length (w : ℕ) (l : List ℚ) : (rollingMean w l).length = l.length := by
  simp [rollingMean]

theorem getD_range_map {α : Type} (f : ℕ → α) (n i : ℕ) (d : α) (h : i < n) :
    ((List.range n).map f).getD i d = f i := by
  rw [List.getD_eq_getElem?_getD, List.getElem?_map, List.getElem?_range h]
  rfl

theorem nanGe_none_left (b : Option ℚ) : nanGe none b = false := by
  cases b <;> rfl

theorem nanGe_none_right (a : Option ℚ) : nanGe a none = false := by
  cases a <;> rfl

/-! ## Claim theorems -/

/-- Claim C6: `is_trending_up` returns true whenever the series has at most
`days_ago` points, regardless of the values; otherwise (on a series of
defined values) it returns true exactly when the latest value is greater
than or equal to the value `days_ago` points earlier -- non-strict, so a
flat series trends up. -/
theorem is_trending_up_spec :
    ∀ (s : List (Option ℚ)) (k : ℕ),
      (s.length ≤ k → is_trending_up s k = true) ∧
      (∀ l : List ℚ, k < l.length →
        is_trending_up (l.map some) k =
          decide (l.getD (l.length - (k + 1)) 0 ≤ l.getD (l.length - 1) 0)) := by
  intro s k
  constructor
  · intro h
    unfold is_trending_up
    rw [if_pos h]
  · intro l h
    unfold is_trending_up
    rw [List.length_map]
    rw [if_neg (Nat.not_le.mpr h)]
    rw [getD_map_some, getD_map_some]
    rw [get?_eq_some_getD _ _ (by omega), get?_eq_some_getD _ _ (by omega)]
    rfl

/-- Claim C6 witness: a 1-point series trends up at offset 3, and on
[3, 1, 2] with offset 1 the check compares the last value against the
middle one. -/
theorem is_trending_up_spec_witness :
    is_trending_up [some 1] 3 = true ∧
    is_trending_up (([3, 1, 2] : List ℚ).map some) 1 =
      decide (([3, 1, 2] : List ℚ).getD 1 0 ≤ ([3, 1, 2] : List ℚ).getD 2 0) :=
  ⟨(is_trending_up_spec [some 1] 3).1 (by decide),
   (is_trending_up_spec [] 1).2 [3, 1, 2] (by decide)⟩

/-- Claim C10: the benefit-of-the-doubt default looks only at the series
length; when the series is longer than the offset but an accessed
moving-average value is NaN, the comparison is false.  In particular a
close series longer than the offset but shorter than the window makes the
sub-check false, and (for the MA10/offset-5 instance) the whole
MAs-trending-up criterion false. -/
theorem trending_up_missing_ma_fails :
    (∀ (s : List (Option ℚ)) (k : ℕ), k < s.length →
      (s.getD (s.length - 1) none = none ∨ s.getD (s.length - (k + 1)) none = none) →
      is_trending_up s k = false) ∧
    (∀ (closes : List ℚ) (w k : ℕ), k < closes.length → closes.length < w →
      is_trending_up (rollingMean w closes) k = false) ∧
    (∀ closes : List ℚ, 5 < closes.length → closes.length < 10 →
      mas_trending_up closes = false) := by
  have part1 : ∀ (s : List (Option ℚ)) (k : ℕ), k < s.length →
      (s.getD (s.length - 1) none = none ∨ s.getD (s.length - (k + 1)) none = none) →
      is_trending_up s k = false := by
    intro s k hk hnone
    unfold is_trending_up
    rw [if_neg (Nat.not_le.mpr hk)]
    rcases hnone with h | h <;> rw [h]
    · exact nanGe_none_left _
    · exact nanGe_none_right _
  have part2 : ∀ (closes : List ℚ) (w k : ℕ), k < closes.length → closes.length < w →
      is_trending_up (rollingMean w closes) k = false := by
    intro closes w k hk hw
    apply part1
    · rw [rollingMean_length]; exact hk
    · left
      rw [rollingMean_length]
      unfold rollingMean
      rw [getD_range_map _ _ _ _ (by omega)]
      unfold rollingMeanAt
      rw [if_pos (by omega)]
  refine ⟨part1, part2, ?_⟩
  intro closes h5 h10
  unfold mas_trending_up
  rw [part2 closes 10 5 h5 h10]
  rfl

/-- Claim C10 witness: a length-2 series with a NaN hole fails at offset 1;
a 6-bar close series fails the MA10 sub-check at offset 5 and with it the
whole MAs-trending-up criterion. -/
theorem trending_up_missing_ma_fails_witness :
    is_trending_up [none, some 1] 1 = false ∧
    is_trending_up (rollingMean 10 [1, 2, 3, 4, 5, 6]) 5 = false ∧
    mas_trending_up [1, 2, 3, 4, 5, 6] = false :=
  ⟨trending_up_missing_ma_fails.1 [none, some 1] 1 (by decide) (Or.inr (by decide)),
   trending_up_missing_ma_fails.2.1 [1, 2, 3, 4, 5, 6] 10 5 (by decide) (by decide),
   trending_up_missing_ma_fails.2.2 [1, 2, 3, 4, 5, 6] (by decide) (by decide)⟩

/-- Claim C7: the MA-sequencing criterion is true exactly when MA10 and
MA200 are defined at the latest bar and the five latest moving averages are
strictly decreasing along increasing window sizes; whenever MA10 or MA200 is
undefined the criterion is false. -/
theorem ma_sequence_spec : ∀ closes : List ℚ,
    (ma_sequence closes = true ↔
      ∃ a b c d e, lastMA closes 10 = some a ∧ lastMA closes 20 = some b ∧
        lastMA closes 50 = some c ∧ lastMA closes 100 = some d ∧
        lastMA closes 200 = some e ∧ b < a ∧ c < b ∧ d < c ∧ e < d) ∧
    ((lastMA closes 10 = none ∨ lastMA closes 200 = none) → ma_sequence closes = false) := by
  intro closes
  constructor
  · unfold ma_sequence
    cases h10 : lastMA closes 10 <;> cases h200 : lastMA closes 200 <;>
      cases h20 : lastMA closes 20 <;> cases h50 : lastMA closes 50 <;>
        cases h100 : lastMA closes 100 <;> simp [nanGT, and_assoc]
  · intro h
    unfold ma_sequence
    rcases h with h | h <;> rw [h] <;> simp

set_option maxRecDepth 8000 in
/-- Claim C7 witness: the 300-bar rising series has all five moving averages
defined and strictly ordered, so the criterion holds; a 3-bar series has
MA10 undefined, so the criterion is false. -/
theorem ma_sequence_spec_witness :
    ma_sequence upCloses = true ∧ ma_sequence [1, 2, 3] = false :=
  ⟨(ma_sequence_spec upCloses).1.mpr
    ⟨789 / 2, 779 / 2, 749 / 2, 699 / 2, 599 / 2,
     by with_unfolding_all decide, by with_unfolding_all decide,
     by with_unfolding_all decide, by with_unfolding_all decide,
     by with_unfolding_all decide, by with_unfolding_all decide,
     by with_unfolding_all decide, by with_unfolding_all decide,
     by with_unfolding_all decide⟩,
   (ma_sequence_spec [1, 2, 3]).2 (Or.inl (by decide))⟩

/-- Claim C8: the higher-highs/higher-lows criterion is false for any series
shorter than 120 bars; for a series of at least 120 bars it holds exactly
when both windows are non-empty and the recent window's maximum high and
minimum low strictly exceed the prior window's. -/
theorem higher_highs_lows_spec : ∀ bars : List PriceBar,
    (bars.length < 120 → higher_highs_lows bars = false) ∧
    (120 ≤ bars.length →
      (higher_highs_lows bars = true ↔
        recentWindow bars ≠ [] ∧ priorWindow bars ≠ [] ∧
        ∃ rh ph rl pl,
          listMax ((recentWindow bars).map PriceBar.high) = some rh ∧
          listMax ((priorWindow bars).map PriceBar.high) = some ph ∧
          listMin ((recentWindow bars).map PriceBar.low) = some rl ∧
          listMin ((priorWindow bars).map PriceBar.low) = some pl ∧
          ph < rh ∧ pl < rl)) := by
  intro bars
  constructor
  · intro h
    unfold higher_highs_lows
    rw [if_neg (by omega)]
  · intro h
    unfold higher_highs_lows
    rw [if_pos h]
    by_cases hre : recentWindow bars = []
    · simp [hre]
    · by_cases hpr : priorWindow bars = []
      · simp [hre, hpr]
      · obtain ⟨rh, hrh⟩ := listMax_isSome (l := (recentWindow bars).map PriceBar.high)
          (by simp [hre])
        obtain ⟨ph, hph⟩ := listMax_isSome (l := (priorWindow bars).map PriceBar.high)
          (by simp [hpr])
        obtain ⟨rl, hrl⟩ := listMin_isSome (l := (recentWindow bars).map PriceBar.low)
          (by simp [hre])
        obtain ⟨pl, hpl⟩ := listMin_isSome (l := (priorWindow bars).map PriceBar.low)
          (by simp [hpr])
        rw [hrh, hph, hrl, hpl]
        simp [hre, hpr, hrh, hph, hrl, hpl, and_assoc]

set_option maxRecDepth 8000 in
/-- Claim C8 witness: a 2-bar series is too short; on a 121-bar rising
series the recent 120 bars make strictly higher highs and lows than the
single prior bar, so the criterion holds. -/
theorem higher_highs_lows_spec_witness :
    higher_highs_lows [⟨2, 1, 1⟩] = false ∧ higher_highs_lows hhBars = true :=
  ⟨(higher_highs_lows_spec [⟨2, 1, 1⟩]).1 (by decide),
   ((higher_highs_lows_spec hhBars).2 (by with_unfolding_all decide)).mpr
    ⟨by with_unfolding_all decide, by with_unfolding_all decide,
     122, 2, 2, 1,
     by with_unfolding_all decide, by with_unfolding_all decide,
     by with_unfolding_all decide, by with_unfolding_all decide,
     by with_unfolding_all decide, by with_unfolding_all decide⟩⟩

/-- Claim C2: the fundamentals-growth computation (both metrics must pass,
each needing exactly 4 values and at least 2 of 3 strictly positive
period-over-period ratios) is correctly performed inside the `try` block --
the specification's own example passes it -- but the unconditional
`eps_sales_growth = False` on line 140 of analyze_stages.py discards the
computed value, so the criterion the classifier reports is `false` for every
input, including the passing example. -/
theorem eps_growth_discarded :
    (∀ netIncome revenue : List ℚ, eps_sales_growth netIncome revenue = false) ∧
    checkFundamentalsGrowth [200, 150, 100, 50] [400, 300, 200, 100] = true ∧
    checkFundamentalsGrowth [50, 100, 150, 200] [400, 300, 200, 100] = false := by
  refine ⟨fun _ _ => rfl, ?_, ?_⟩ <;> with_unfolding_all decide

/-- Claim C3 (counterexample): at score -0.31 the code returns the
potential-distribution label, not the high-distribution label the claim
requires for every score strictly below -0.3. -/
theorem sentiment_label_counterexample :
    institutionActivity (-(31 / 100)) = Activity.potentialDistribution ∧
    institutionActivity (-(31 / 100)) ≠ Activity.highDistribution := by
  with_unfolding_all decide

/-- Claim C3 (amended): the branches are evaluated in the order `> 0.3`,
`> 0.1`, `< -0.1`, `< -0.3`, else mixed; consequently every score strictly
below -0.3 is labelled potential distribution, and the high-distribution
branch is unreachable. -/
theorem sentiment_label_order : ∀ s : ℚ,
    institutionActivity s =
      (if 3 / 10 < s then Activity.strongAccumulation
       else if 1 / 10 < s then Activity.moderateAccumulation
       else if s < -(1 / 10) then Activity.potentialDistribution
       else Activity.mixed) ∧
    (s < -(3 / 10) → institutionActivity s = Activity.potentialDistribution) ∧
    institutionActivity s ≠ Activity.highDistribution := by
  intro s
  unfold institutionActivity
  refine ⟨?_, ?_, ?_⟩ <;>
    split_ifs <;>
      first
        | rfl
        | (intro h; rfl)
        | (intro h; exfalso; linarith)
        | (exfalso; linarith)
        | simp

/-- Claim C3 (witness for the amended claim): a score of -0.5 is labelled
potential distribution. -/
theorem sentiment_label_order_witness :
    institutionActivity (-(1 / 2)) = Activity.potentialDistribution :=
  (sentiment_label_order (-(1 / 2))).2.1 (by with_unfolding_all decide)

/-- Claim C4: a non-empty weekly series does not always produce a result --
on every single-bar series the scorer reaches `iloc[-2]` on the trend moving
average (analyze_volume.py line 110), an out-of-range access that raises
IndexError instead of returning a degraded result. -/
theorem volume_analysis_one_bar_raises :
    ∀ (t : String) (b : WeekBar) (p : Period),
      volume_analysis t [b] p = .error VaError.indexOutOfRange := by
  intro t b p
  rfl

/-- Claim C5: an empty frame (for both entry points) and a frame without a
close-price column (for the stage classifier) fail up front with the
data-unavailable error carrying the requested symbol, whatever the rest of
the input holds. -/
theorem data_unavailable_on_empty :
    ∀ (t : String) (hc : Bool) (rows : List PriceBar) (ni rv : List ℚ) (p : Period),
      analyze_stock_stage2 t ⟨[], hc⟩ ni rv = .error (DataErr.noData t) ∧
      analyze_stock_stage2 t ⟨rows, false⟩ ni rv = .error (DataErr.noData t) ∧
      volume_analysis t [] p = .error (VaError.noData t) := by
  intro t hc rows ni rv p
  refine ⟨rfl, ?_, rfl⟩
  simp [analyze_stock_stage2]

theorem filter_map_sum_foldr (l : List ℕ) (f : ℕ → Bool) (g : ℕ → ℚ) :
    ((l.filter f).map g).sum = l.foldr (fun i acc => if f i then g i + acc else acc) 0 := by
  induction l with
  | nil => rfl
  | cons x xs ih => by_cases hf : f x <;> simp [List.filter_cons, hf, ih]

theorem weightedAccumulationSpec_eq (bars : List WeekBar) :
    weightedAccumulationSpec bars =
      (((List.range bars.length).filter (accumulationDay bars)).map (volumeStrength bars)).sum := by
  rw [filter_map_sum_foldr (List.range bars.length) (accumulationDay bars) (volumeStrength bars)]
  rfl

theorem ite_verdict (c : Prop) [Decidable c] :
    (if c then Verdict.yes else Verdict.no) = Verdict.no ∨
    (if c then Verdict.yes else Verdict.no) = Verdict.yes := by
  split
  · exact Or.inr rfl
  · exact Or.inl rfl

/-- Claim C9: whenever the scorer returns a result, its sentiment score is
`(2 x weighted accumulation - 1.5 x pullback count) / max(bar count, 1)`,
rounded to 2 decimals, with the weighted accumulation summing
volume-over-10-period-average (non-finite values clamped to 0) across
accumulation days. -/
theorem sentiment_score_refines :
    ∀ (t : String) (bars : List WeekBar) (p : Period) (r : VaResult),
      volume_analysis t bars p = .ok r → r.sentimentScore = sentimentScoreSpec bars := by
  intro t bars p r h
  unfold volume_analysis at h
  by_cases h1 : bars.isEmpty = true
  · rw [if_pos h1] at h
    exact absurd h (by simp)
  · rw [if_neg h1] at h
    by_cases h2 : bars.length < 2
    · rw [if_pos h2] at h
      exact absurd h (by simp)
    · rw [if_neg h2] at h
      simp only [Except.ok.injEq] at h
      rw [← h]
      unfold sentimentScoreSpec pullbackCountSpec
      rw [weightedAccumulationSpec_eq]

/-- Claim C9 witness: on the concrete two-bar weekly series the pipeline
returns a record whose sentiment score equals the spec formula. -/
theorem sentiment_score_refines_witness :
    vExpected.sentimentScore = sentimentScoreSpec vBars :=
  sentiment_score_refines tkr vBars (Period.mo 6) vExpected (by with_unfolding_all decide)

set_option maxRecDepth 8000 in
/-- Claim C1: the overall verdict the classifier reports is never tiered --
every successful run yields "Yes" or "No", never "Yes+" or "Yes++" -- even
on the repository test fixture TEST_UP (300 strictly rising bars), where all
four technical criteria and the relative-strength bonus hold and the claim
(and the repository's own test suite) require "Yes+". -/
theorem stage2_overall_untiered :
    (∀ (t : String) (df : PriceFrame) (ni rv : List ℚ) (r : StageResult),
      analyze_stock_stage2 t df ni rv = .ok r →
      r.overall = Verdict.no ∨ r.overall = Verdict.yes) ∧
    analyze_stock_stage2 tkr upFrame [] [] = .ok upExpected := by
  constructor
  · intro t df ni rv r h
    unfold analyze_stock_stage2 at h
    by_cases hg : (df.rows.isEmpty || !df.hasClose) = true
    · rw [if_pos hg] at h
      exact absurd h (by simp)
    · rw [if_neg hg] at h
      simp only [Except.ok.injEq] at h
      rw [← h]
      exact ite_verdict _
  · with_unfolding_all decide

/-- Claim C1 witness: the verdict of the TEST_UP run is in the untiered
set. -/
theorem stage2_overall_untiered_witness :
    upExpected.overall = Verdict.no ∨ upExpected.overall = Verdict.yes :=
  stage2_overall_untiered.1 tkr upFrame [] [] upExpected stage2_overall_untiered.2

end InvestorAgent
